import Mathlib

/-!
Verification of the DMC inventory application (`src/api/index.py`).

The program keeps two SQLite tables, `it_inventory` (assets) and
`inventory_tracker` (allocation records), and exposes list / create /
delete operations over them, both as FastAPI endpoints and as a
Streamlit form UI, plus grouped-count dashboard queries.

The store is embedded as two Lean lists kept in insertion order (SQLite
assigns increasing AUTOINCREMENT row ids and an unordered `SELECT` scans
the table in rowid order).  SQL `LIKE` is embedded with SQLite's default
semantics: ASCII-only case folding, `%` matching any sequence and `_`
matching any single character.  SQL `NULL` is embedded as `none`; both
`NULL LIKE p` and `NULL = v` are falsy in a `WHERE` clause.  A failed
statement (validation or constraint violation) leaves the store
unchanged, mirroring single-statement transaction rollback.
-/

namespace DMCInventory

/-- A row of the `it_inventory` table (SQLAlchemy model `ITInventory`).
`assets_id` is `nullable=False` and required by the pydantic schema, so it
is a plain `String`; every other data column is nullable. -/
structure ITInventory where
  id : Nat
  assets_id : String
  system_type : Option String
  location : Option String
  brand : Option String
  model : Option String
  serial_number : Option String
  status : Option String
  windows : Option String
  config : Option String
  warranty_status : Option String
  last_audit_date : Option String
  remarks : Option String
deriving DecidableEq

/-- A row of the `inventory_tracker` table (SQLAlchemy model
`InventoryTracker`).  `employee_name` and `assets_id` are required by the
pydantic schema of every writer, so they are plain `String`s. -/
structure InventoryTracker where
  id : Nat
  employee_name : String
  assets_id : String
  system_type : Option String
  location : Option String
  brand : Option String
  model : Option String
  serial_number : Option String
  status : Option String
  windows : Option String
  config : Option String
  warranty_status : Option String
  date_of_allocation : Option String
  date_of_return : Option String
  last_audit_date : Option String
  phone_number : Option String
  extra_allocated_item : Option String
deriving DecidableEq

/-- The persistent state: both tables, each in insertion order. -/
structure Store where
  it_inventory : List ITInventory
  inventory_tracker : List InventoryTracker
deriving DecidableEq

/-- Request body of `POST /api/it_inventory` (pydantic `ITInventoryCreate`):
`assets_id` required, everything else optional. -/
structure ITInventoryCreate where
  assets_id : String
  system_type : Option String
  location : Option String
  brand : Option String
  model : Option String
  serial_number : Option String
  status : Option String
  windows : Option String
  config : Option String
  warranty_status : Option String
  last_audit_date : Option String
  remarks : Option String
deriving DecidableEq

/-- Request body of `POST /api/inventory_tracker` (pydantic `TrackerCreate`). -/
structure TrackerCreate where
  employee_name : String
  assets_id : String
  system_type : Option String
  location : Option String
  brand : Option String
  model : Option String
  serial_number : Option String
  status : Option String
  windows : Option String
  config : Option String
  warranty_status : Option String
  date_of_allocation : Option String
  date_of_return : Option String
  last_audit_date : Option String
  phone_number : Option String
  extra_allocated_item : Option String
deriving DecidableEq

/-- The twelve text inputs of the Streamlit "Add/Edit IT Inventory Item"
form; Streamlit text inputs and selectboxes yield plain (possibly empty)
strings, never `NULL`. -/
structure ITItemForm where
  assets_id : String
  system_type : String
  location : String
  brand : String
  model : String
  serial_number : String
  status : String
  windows : String
  config : String
  warranty_status : String
  last_audit_date : String
  remarks : String
deriving DecidableEq

/-- Errors surfaced by the operations: HTTP 400 / the form's required-field
message (`validation`), a UNIQUE-constraint violation (`conflict`),
HTTP 404 (`notFound`). -/
inductive ApiError where
  | validation (msg : String)
  | conflict (msg : String)
  | notFound (msg : String)
deriving DecidableEq

/-- SQLite's default `LIKE` folds only the ASCII letters A-Z. -/
def sqliteCharLower (c : Char) : Char :=
  if 65 ≤ c.toNat ∧ c.toNat ≤ 90 then Char.ofNat (c.toNat + 32) else c

/-- ASCII lower-casing of a string; agrees with Python's `str.lower()` on
the ASCII strings compared in the endpoints. -/
def lowerAscii (s : String) : String :=
  ⟨s.data.map sqliteCharLower⟩

/-- SQLite `LIKE` pattern matching (default `case_sensitive_like` off):
first argument the pattern, second the value; `%` matches any sequence,
`_` any single character, other characters match up to ASCII case. -/
def likeMatch : List Char → List Char → Bool
  | [], ss => ss.isEmpty
  | '%' :: ps, ss => ss.tails.any (likeMatch ps)
  | '_' :: ps, ss =>
    match ss with
    | [] => false
    | _ :: ss => likeMatch ps ss
  | p :: ps, ss =>
    match ss with
    | [] => false
    | c :: ss => (sqliteCharLower p == sqliteCharLower c) && likeMatch ps ss

/-- `col LIKE '%term%'` against a non-NULL column value. -/
def likeContains (term value : String) : Bool :=
  likeMatch ("%" ++ term ++ "%").data value.data

/-- `col LIKE '%term%'` against a nullable column: `NULL LIKE p` is not
true, so the row is filtered out. -/
def optLike (term : String) : Option String → Bool
  | none => false
  | some v => likeContains term v

/-- The OR-chain of `LIKE` conditions built by `list_it_inventory` over the
seven searchable asset columns. -/
def itMatchesSearch (q : String) (r : ITInventory) : Bool :=
  likeContains q r.assets_id || optLike q r.system_type || optLike q r.location ||
    optLike q r.brand || optLike q r.model || optLike q r.serial_number ||
    optLike q r.status

/-- The OR-chain of `LIKE` conditions built by `list_inventory_tracker`
over the eight searchable tracker columns (adds `employee_name`). -/
def trMatchesSearch (q : String) (r : InventoryTracker) : Bool :=
  likeContains q r.employee_name || likeContains q r.assets_id ||
    optLike q r.system_type || optLike q r.location || optLike q r.brand ||
    optLike q r.model || optLike q r.serial_number || optLike q r.status

/-- The `if q:` step of `list_it_inventory`: the `LIKE` block is added only
for a present, non-empty search term (`None` and `""` are both falsy). -/
def itSearchStage (q : Option String) (rows : List ITInventory) : List ITInventory :=
  match q with
  | none => rows
  | some t => if t = "" then rows else rows.filter (itMatchesSearch t)

/-- The `if status and status.lower() != "all":` step of
`list_it_inventory`: the equality filter is added only for a present,
non-empty status that is not a case variant of `all`. -/
def itStatusStage (statusFilter : Option String) (rows : List ITInventory) : List ITInventory :=
  match statusFilter with
  | none => rows
  | some st =>
    if st = "" then rows
    else if lowerAscii st = "all" then rows
    else rows.filter (fun r => r.status == some st)

/-- `GET /api/it_inventory?q=&status=` (`list_it_inventory`): the base
query over the asset table, then the search stage, then the status stage. -/
def list_it_inventory (q statusFilter : Option String) (s : Store) : List ITInventory :=
  itStatusStage statusFilter (itSearchStage q s.it_inventory)

/-- The `if q:` step of `list_inventory_tracker`. -/
def trSearchStage (q : Option String) (rows : List InventoryTracker) : List InventoryTracker :=
  match q with
  | none => rows
  | some t => if t = "" then rows else rows.filter (trMatchesSearch t)

/-- The `if status and status.lower() != "all":` step of
`list_inventory_tracker`. -/
def trStatusStage (statusFilter : Option String) (rows : List InventoryTracker) :
    List InventoryTracker :=
  match statusFilter with
  | none => rows
  | some st =>
    if st = "" then rows
    else if lowerAscii st = "all" then rows
    else rows.filter (fun r => r.status == some st)

/-- `GET /api/inventory_tracker?q=&status=` (`list_inventory_tracker`). -/
def list_inventory_tracker (q statusFilter : Option String) (s : Store) : List InventoryTracker :=
  trStatusStage statusFilter (trSearchStage q s.inventory_tracker)

/-- Next AUTOINCREMENT id for the asset table. -/
def nextITId (rows : List ITInventory) : Nat :=
  rows.foldr (fun r m => max r.id m) 0 + 1

/-- Next AUTOINCREMENT id for the tracker table. -/
def nextTrackerId (rows : List InventoryTracker) : Nat :=
  rows.foldr (fun r m => max r.id m) 0 + 1

/-- The row inserted for a `POST /api/it_inventory` payload. -/
def mkITRow (id : Nat) (p : ITInventoryCreate) : ITInventory :=
  ⟨id, p.assets_id, p.system_type, p.location, p.brand, p.model, p.serial_number,
    p.status, p.windows, p.config, p.warranty_status, p.last_audit_date, p.remarks⟩

/-- A row of `it_inventory` collides with a new payload when it repeats the
payload's `assets_id`, or repeats a non-NULL `serial_number` (SQLite UNIQUE
constraints ignore NULLs). -/
def itConflicts (p : ITInventoryCreate) (r : ITInventory) : Bool :=
  r.assets_id == p.assets_id || (p.serial_number.isSome && r.serial_number == p.serial_number)

/-- `POST /api/it_inventory` (`create_it_inventory`): rejects an empty
`assets_id` with HTTP 400 (a missing `assets_id` is already rejected by
pydantic — the field is required, so the embedding takes it as a plain
`String`); a UNIQUE-constraint violation on `assets_id` or `serial_number`
aborts the insert (the transaction rolls back, so the store is returned
unchanged); otherwise the row is appended with a fresh id. -/
def create_it_inventory (p : ITInventoryCreate) (s : Store) :
    Except ApiError ITInventory × Store :=
  if p.assets_id = "" then (.error (.validation "Assets ID is required"), s)
  else if s.it_inventory.any (itConflicts p) then
    (.error (.conflict "UNIQUE constraint failed"), s)
  else
    let item := mkITRow (nextITId s.it_inventory) p
    (.ok item, ⟨s.it_inventory ++ [item], s.inventory_tracker⟩)

/-- The row inserted for a `POST /api/inventory_tracker` payload. -/
def mkTrackerRow (id : Nat) (p : TrackerCreate) : InventoryTracker :=
  ⟨id, p.employee_name, p.assets_id, p.system_type, p.location, p.brand, p.model,
    p.serial_number, p.status, p.windows, p.config, p.warranty_status,
    p.date_of_allocation, p.date_of_return, p.last_audit_date, p.phone_number,
    p.extra_allocated_item⟩

/-- `POST /api/inventory_tracker` (`create_inventory_record`): rejects an
empty `employee_name` or `assets_id` with HTTP 400; the tracker table has
no uniqueness constraints, so every valid payload is appended. -/
def create_inventory_record (p : TrackerCreate) (s : Store) :
    Except ApiError InventoryTracker × Store :=
  if p.employee_name = "" ∨ p.assets_id = "" then
    (.error (.validation "Employee Name and Assets ID are required"), s)
  else
    let rec_ := mkTrackerRow (nextTrackerId s.inventory_tracker) p
    (.ok rec_, ⟨s.it_inventory, s.inventory_tracker ++ [rec_]⟩)

/-- `DELETE /api/it_inventory/{item_id}` (`delete_it_inventory`): looks up
the first row with the given primary key; 404 when absent, otherwise that
single row is deleted.  The tracker table is never touched (no cascade). -/
def delete_it_inventory (itemId : Nat) (s : Store) : Except ApiError Unit × Store :=
  match s.it_inventory.find? (fun r => r.id == itemId) with
  | none => (.error (.notFound "Item not found"), s)
  | some _ => (.ok (), ⟨s.it_inventory.eraseP (fun r => r.id == itemId), s.inventory_tracker⟩)

/-- `DELETE /api/inventory_tracker/{record_id}` (`delete_inventory_record`). -/
def delete_inventory_record (recordId : Nat) (s : Store) : Except ApiError Unit × Store :=
  match s.inventory_tracker.find? (fun r => r.id == recordId) with
  | none => (.error (.notFound "Record not found"), s)
  | some _ => (.ok (), ⟨s.it_inventory, s.inventory_tracker.eraseP (fun r => r.id == recordId)⟩)

/-- The Streamlit `add_it_item`: requires both `Assets ID` and
`Serial Number` to be non-empty, then inserts the form's values (plain
strings, stored as TEXT, never NULL); an `sqlite3.IntegrityError` from the
UNIQUE constraints is caught and reported, leaving the store unchanged. -/
def add_it_item (f : ITItemForm) (s : Store) : Except ApiError Unit × Store :=
  if f.assets_id = "" ∨ f.serial_number = "" then
    (.error (.validation "Assets ID and Serial Number are required"), s)
  else if s.it_inventory.any (fun r =>
      r.assets_id == f.assets_id || r.serial_number == some f.serial_number) then
    (.error (.conflict "Assets ID or Serial Number already exists"), s)
  else
    (.ok (), ⟨s.it_inventory ++
      [⟨nextITId s.it_inventory, f.assets_id, some f.system_type, some f.location,
        some f.brand, some f.model, some f.serial_number, some f.status,
        some f.windows, some f.config, some f.warranty_status,
        some f.last_audit_date, some f.remarks⟩], s.inventory_tracker⟩)

/-- The rows selected by the Streamlit `display_inventory_tracker`: its
SQL applies the eight-column `LIKE` block only for a non-empty search term
and the `status = ?` condition only for a filter different from the exact
string `"All"` (no lower-casing on this path). -/
def display_inventory_tracker_rows (searchTerm statusFilter : String) (s : Store) :
    List InventoryTracker :=
  if searchTerm = "" ∧ statusFilter = "All" then s.inventory_tracker
  else
    s.inventory_tracker.filter (fun r =>
      (searchTerm == "" || trMatchesSearch searchTerm r) &&
        (statusFilter == "All" || r.status == some statusFilter))

/-- `SELECT field, COUNT(*) FROM t GROUP BY field`: one bucket per distinct
value of the grouping column, SQL `NULL`s (here `none`) grouping together
as their own bucket. -/
def groupCountBy {α : Type} (f : α → Option String) (rows : List α) :
    List (Option String × Nat) :=
  ((rows.map f).dedup).map (fun v => (v, rows.countP (fun r => f r == v)))

/-- `SELECT status, COUNT(*) FROM it_inventory GROUP BY status`
(dashboard asset-status chart and the Asset Summary Report). -/
def asset_status_counts (s : Store) : List (Option String × Nat) :=
  groupCountBy (fun r => r.status) s.it_inventory

/-- `SELECT location, COUNT(*) FROM it_inventory GROUP BY location`
(dashboard location chart). -/
def asset_location_counts (s : Store) : List (Option String × Nat) :=
  groupCountBy (fun r => r.location) s.it_inventory

/-! ### Spec-side predicates and sample data -/

/-- `t` occurs as a contiguous, character-exact (case-sensitive) substring
of `s`: some suffix of `s` starts with `t`. -/
def substrCS (t s : String) : Bool :=
  s.data.tails.any (fun suf => t.data.isPrefixOf suf)

/-- Case-sensitive substring occurrence in a nullable column. -/
def optSubstrCS (t : String) : Option String → Bool
  | none => false
  | some s => substrCS t s

/-- Modelled from the spec: "the term appears as a case-sensitive substring
in ANY of the entity's searchable text fields (asset: assetId, systemType,
location, brand, model, serialNumber, status)".  This is the spec's stated
matching policy, to be compared against the `LIKE`-based implementation. -/
def specCaseSensitiveAssetMatch (t : String) (r : ITInventory) : Bool :=
  substrCS t r.assets_id || optSubstrCS t r.system_type || optSubstrCS t r.location ||
    optSubstrCS t r.brand || optSubstrCS t r.model || optSubstrCS t r.serial_number ||
    optSubstrCS t r.status

/-- The seven searchable columns of an asset row, in the order the source
ORs them together. -/
def assetSearchFields (r : ITInventory) : List (Option String) :=
  [some r.assets_id, r.system_type, r.location, r.brand, r.model, r.serial_number, r.status]

/-- The eight searchable columns of a tracker row (adds `employee_name`). -/
def trackerSearchFields (r : InventoryTracker) : List (Option String) :=
  [some r.employee_name, some r.assets_id, r.system_type, r.location, r.brand, r.model,
    r.serial_number, r.status]

/-- A concrete stored asset used by witnesses and counterexamples. -/
def sampleAsset : ITInventory :=
  ⟨1, "A100", none, none, none, none, some "SN1", some "Available", none, none, none, none, none⟩

/-- A store holding exactly `sampleAsset`. -/
def sampleStore : Store := ⟨[sampleAsset], []⟩

/-- An asset none of whose fields contain an underscore. -/
def wildcardAsset : ITInventory :=
  ⟨2, "X", none, none, none, none, some "SN2", none, none, none, none, none, none⟩

/-- A store holding exactly `wildcardAsset`. -/
def wildcardStore : Store := ⟨[wildcardAsset], []⟩

/-- A payload reusing `sampleAsset`'s `assets_id` with a fresh serial. -/
def duplicateIdPayload : ITInventoryCreate :=
  ⟨"A100", none, none, none, none, some "SN2", none, none, none, none, none, none⟩

/-- A payload with a fresh `assets_id` but reusing `sampleAsset`'s serial
number `SN1`. -/
def duplicateSerialPayload : ITInventoryCreate :=
  ⟨"C300", none, none, none, none, some "SN1", none, none, none, none, none, none⟩

/-- A payload with a fresh `assets_id` and serial. -/
def freshPayload : ITInventoryCreate :=
  ⟨"B200", none, none, none, none, some "SN9", none, none, none, none, none, none⟩

/-- A payload whose `serial_number` is the empty string. -/
def emptySerialPayload : ITInventoryCreate :=
  ⟨"A1", none, none, none, none, some "", none, none, none, none, none, none⟩

/-- A payload whose `assets_id` is empty. -/
def emptyIdPayload : ITInventoryCreate :=
  ⟨"", none, none, none, none, some "SN3", none, none, none, none, none, none⟩

/-- A form submission with a non-empty `Assets ID` but empty `Serial Number`. -/
def emptySerialForm : ITItemForm :=
  ⟨"F1", "", "", "", "", "", "", "", "", "", "", ""⟩

/-- A stored allocation record for asset `A100`. -/
def sampleTrackerRow : InventoryTracker :=
  ⟨1, "Bob", "A100", none, none, none, none, none, none, none, none, none, none, none, none,
    none, none⟩

/-- A store whose tracker table holds exactly `sampleTrackerRow`. -/
def sampleTrackerStore : Store := ⟨[], [sampleTrackerRow]⟩

/-- A tracker payload re-allocating asset `A100` to a second employee. -/
def sampleTrackerPayload : TrackerCreate :=
  ⟨"Alice", "A100", none, none, none, none, none, none, none, none, none, none, none, none,
    none, none⟩

/-! ### Helper lemmas -/

/-- Membership in a grouped count: one entry per distinct column value,
carrying the exact number of rows holding that value. -/
theorem mem_groupCountBy {α : Type} (f : α → Option String) (rows : List α)
    (v : Option String) (n : Nat) :
    (v, n) ∈ groupCountBy f rows ↔
      v ∈ rows.map f ∧ n = rows.countP (fun r => f r == v) := by
  constructor
  · intro h
    obtain ⟨w, hw, heq⟩ := List.mem_map.mp h
    have h1 : w = v := congrArg Prod.fst heq
    have h2 : rows.countP (fun r => f r == w) = n := congrArg Prod.snd heq
    subst h1
    exact ⟨List.mem_dedup.mp hw, h2.symm⟩
  · intro h
    obtain ⟨hv, hn⟩ := h
    subst hn
    exact List.mem_map.mpr ⟨v, List.mem_dedup.mpr hv, rfl⟩

/-- The keys of a grouped count are pairwise distinct. -/
theorem keys_groupCountBy {α : Type} (f : α → Option String) (rows : List α) :
    ((groupCountBy f rows).map Prod.fst).Nodup := by
  have h : (groupCountBy f rows).map Prod.fst = (rows.map f).dedup := by
    rw [groupCountBy, List.map_map]
    have h2 : (Prod.fst ∘ fun v : Option String =>
        (v, rows.countP (fun r => f r == v))) = id := rfl
    rw [h2, List.map_id]
  rw [h]
  exact List.nodup_dedup _

/-- In a list whose key projection is duplicate-free, a present key is hit
by exactly one row. -/
theorem countP_eq_one_of_nodup_key {α : Type} (key : α → String) (l : List α) (a : String)
    (hnodup : (l.map key).Nodup) (hmem : ∃ r ∈ l, key r = a) :
    l.countP (fun r => key r == a) = 1 := by
  induction l with
  | nil => simp at hmem
  | cons x xs ih =>
    rw [List.map_cons, List.nodup_cons] at hnodup
    obtain ⟨hx, hxs⟩ := hnodup
    rw [List.countP_cons]
    obtain ⟨r, hr, hra⟩ := hmem
    rcases List.mem_cons.mp hr with heq | hmemxs
    · subst heq
      have hzero : xs.countP (fun r => key r == a) = 0 := by
        apply List.countP_eq_zero.mpr
        intro b hb hba
        exact hx (hra ▸ (beq_iff_eq.mp hba) ▸ List.mem_map.mpr ⟨b, hb, rfl⟩)
      simp [hzero, hra]
    · have hxa : ¬ key x = a := by
        intro hcontra
        exact hx (hcontra ▸ hra ▸ List.mem_map.mpr ⟨r, hmemxs, rfl⟩)
      have hone := ih hxs ⟨r, hmemxs, hra⟩
      simp [hone, hxa]

/-- In a list whose non-NULL keys are duplicate-free (NULLs, which a
UNIQUE column admits repeatedly, are skipped), a present non-NULL key is
hit by exactly one row. -/
theorem countP_eq_one_of_nodup_filterMap {α β : Type} [DecidableEq β]
    (key : α → Option β) (l : List α) (a : β)
    (hnodup : (l.filterMap key).Nodup) (hmem : ∃ r ∈ l, key r = some a) :
    l.countP (fun r => key r == some a) = 1 := by
  induction l with
  | nil => simp at hmem
  | cons x xs ih =>
    obtain ⟨r, hr, hra⟩ := hmem
    rw [List.countP_cons]
    cases hx : key x with
    | none =>
      rw [List.filterMap_cons_none hx] at hnodup
      rcases List.mem_cons.mp hr with heq | hmemxs
      · subst heq
        rw [hra] at hx
        cases hx
      · simp [hx]
        exact ih hnodup ⟨r, hmemxs, hra⟩
    | some w =>
      rw [List.filterMap_cons_some hx, List.nodup_cons] at hnodup
      obtain ⟨hw, hxs⟩ := hnodup
      by_cases hwa : w = a
      · subst hwa
        have hzero : xs.countP (fun r => key r == some w) = 0 := by
          apply List.countP_eq_zero.mpr
          intro b hb hba
          exact hw (List.mem_filterMap.mpr ⟨b, hb, by simpa using hba⟩)
        simp [hx, hzero]
      · rcases List.mem_cons.mp hr with heq | hmemxs
        · subst heq
          rw [hra] at hx
          injection hx with h2
          exact absurd h2.symm hwa
        · have hone := ih hxs ⟨r, hmemxs, hra⟩
          simp [hx, hwa, hone]

/-- On the search stage, every surviving row is a row of the input. -/
theorem itSearchStage_sublist (q : Option String) (l : List ITInventory) :
    List.Sublist (itSearchStage q l) l := by
  rcases q with _ | t
  · exact List.Sublist.refl _
  · simp only [itSearchStage]
    split
    · exact List.Sublist.refl _
    · exact List.filter_sublist _

/-- On the status stage, every surviving row is a row of the input. -/
theorem itStatusStage_sublist (st : Option String) (l : List ITInventory) :
    List.Sublist (itStatusStage st l) l := by
  rcases st with _ | v
  · exact List.Sublist.refl _
  · simp only [itStatusStage]
    split
    · exact List.Sublist.refl _
    · split
      · exact List.Sublist.refl _
      · exact List.filter_sublist _

/-- Tracker version of `itSearchStage_sublist`. -/
theorem trSearchStage_sublist (q : Option String) (l : List InventoryTracker) :
    List.Sublist (trSearchStage q l) l := by
  rcases q with _ | t
  · exact List.Sublist.refl _
  · simp only [trSearchStage]
    split
    · exact List.Sublist.refl _
    · exact List.filter_sublist _

/-- Tracker version of `itStatusStage_sublist`. -/
theorem trStatusStage_sublist (st : Option String) (l : List InventoryTracker) :
    List.Sublist (trStatusStage st l) l := by
  rcases st with _ | v
  · exact List.Sublist.refl _
  · simp only [trStatusStage]
    split
    · exact List.Sublist.refl _
    · split
      · exact List.Sublist.refl _
      · exact List.filter_sublist _

/-- An unfiltered list call (empty term, filter `All`) returns the whole
asset table. -/
theorem list_it_inventory_all (s : Store) :
    list_it_inventory (some "") (some "All") s = s.it_inventory := by
  have h : lowerAscii "All" = "all" := by decide
  simp [list_it_inventory, itSearchStage, itStatusStage, h]

/-! ### Claim theorems -/

/-- C1, counterexample: the search is `LIKE`-based, not a case-sensitive
substring test.  Searching `a100` returns the asset whose fields only
contain `A100` (SQLite `LIKE` folds ASCII case), and searching `_`
returns an asset none of whose fields contain an underscore (`_` is a
single-character wildcard inside the `LIKE` pattern); in both cases the
result contains a record the claimed predicate rejects. -/
theorem list_search_not_case_sensitive :
    (list_it_inventory (some "a100") none sampleStore = [sampleAsset] ∧
      specCaseSensitiveAssetMatch "a100" sampleAsset = false) ∧
    (list_it_inventory (some "_") none wildcardStore = [wildcardAsset] ∧
      specCaseSensitiveAssetMatch "_" wildcardAsset = false) := by
  decide

/-- C1, amended: for every record set and non-empty term, the list
operations return exactly the records in which the term matches at least
one searchable column under SQLite `LIKE '%term%'` semantics —
ASCII-case-insensitively, with `%` and `_` in the term acting as
wildcards — asset columns assetId, systemType, location, brand, model,
serialNumber, status, tracker columns additionally employeeName. -/
theorem list_search_matches_sql_like (t : String) (s : Store) (h : t ≠ "") :
    (∀ r, r ∈ list_it_inventory (some t) none s ↔
        r ∈ s.it_inventory ∧ ∃ f ∈ assetSearchFields r, optLike t f = true) ∧
    (∀ r, r ∈ list_inventory_tracker (some t) none s ↔
        r ∈ s.inventory_tracker ∧ ∃ f ∈ trackerSearchFields r, optLike t f = true) := by
  constructor
  · intro r
    simp only [list_it_inventory, itSearchStage, itStatusStage, if_neg h, List.mem_filter]
    simp [itMatchesSearch, assetSearchFields, optLike, or_assoc]
  · intro r
    simp only [list_inventory_tracker, trSearchStage, trStatusStage, if_neg h, List.mem_filter]
    simp [trMatchesSearch, trackerSearchFields, optLike, or_assoc]

/-- C1, witness: the amended characterization applied to the concrete term
`100` on the one-asset store. -/
theorem list_search_matches_sql_like_witness :
    sampleAsset ∈ list_it_inventory (some "100") none sampleStore ↔
      sampleAsset ∈ sampleStore.it_inventory ∧
        ∃ f ∈ assetSearchFields sampleAsset, optLike "100" f = true :=
  (list_search_matches_sql_like "100" sampleStore (by decide)).1 sampleAsset

/-- C2: on a store whose assets have non-empty, duplicate-free asset ids
and duplicate-free non-NULL serial numbers (the data-model invariant, and
what the UNIQUE constraints maintain), a create repeating a stored
`assets_id` fails on the UNIQUE constraint with the store returned
unchanged and exactly one stored record bearing that id; likewise a create
with a fresh `assets_id` but repeating a stored non-NULL `serial_number`
fails on the UNIQUE constraint with the store returned unchanged and
exactly one stored record bearing that serial. -/
theorem create_asset_duplicate_conflict (p : ITInventoryCreate) (s : Store)
    (hne : ∀ r ∈ s.it_inventory, r.assets_id ≠ "")
    (hnodup : (s.it_inventory.map (fun r => r.assets_id)).Nodup)
    (hsnodup : (s.it_inventory.filterMap (fun r => r.serial_number)).Nodup) :
    ((∃ r ∈ s.it_inventory, r.assets_id = p.assets_id) →
      create_it_inventory p s =
        (Except.error (ApiError.conflict "UNIQUE constraint failed"), s) ∧
      s.it_inventory.countP (fun r => r.assets_id == p.assets_id) = 1) ∧
    (p.assets_id ≠ "" → p.serial_number ≠ none →
      (∃ r ∈ s.it_inventory, r.serial_number = p.serial_number) →
      create_it_inventory p s =
        (Except.error (ApiError.conflict "UNIQUE constraint failed"), s) ∧
      s.it_inventory.countP (fun r => r.serial_number == p.serial_number) = 1) := by
  constructor
  · intro hdup
    obtain ⟨r0, hr0, hid⟩ := hdup
    have hpne : ¬ p.assets_id = "" := by
      rw [← hid]
      exact hne r0 hr0
    have hany : s.it_inventory.any (itConflicts p) = true :=
      List.any_eq_true.mpr ⟨r0, hr0, by simp [itConflicts, hid]⟩
    refine ⟨?_, countP_eq_one_of_nodup_key (fun r => r.assets_id) _ _ hnodup ⟨r0, hr0, hid⟩⟩
    simp [create_it_inventory, hpne, hany]
  · intro hpne hsome hdup
    obtain ⟨r0, hr0, hserial⟩ := hdup
    obtain ⟨v, hv⟩ := Option.ne_none_iff_exists'.mp hsome
    have hany : s.it_inventory.any (itConflicts p) = true :=
      List.any_eq_true.mpr ⟨r0, hr0, by simp [itConflicts, hserial, hv]⟩
    refine ⟨by simp [create_it_inventory, hpne, hany], ?_⟩
    have h1 := countP_eq_one_of_nodup_filterMap (fun r : ITInventory => r.serial_number)
      s.it_inventory v hsnodup ⟨r0, hr0, by show r0.serial_number = some v; rw [hserial, hv]⟩
    rw [hv]
    exact h1

/-- C2, witness: against the one-asset store, re-creating id `A100` (with
a fresh serial) and re-creating serial `SN1` (with the fresh id `C300`)
both fail with the conflict error, each leaving exactly one row bearing
the duplicated value. -/
theorem create_asset_duplicate_conflict_witness :
    (create_it_inventory duplicateIdPayload sampleStore =
        (Except.error (ApiError.conflict "UNIQUE constraint failed"), sampleStore) ∧
      sampleStore.it_inventory.countP
        (fun r => r.assets_id == duplicateIdPayload.assets_id) = 1) ∧
    (create_it_inventory duplicateSerialPayload sampleStore =
        (Except.error (ApiError.conflict "UNIQUE constraint failed"), sampleStore) ∧
      sampleStore.it_inventory.countP
        (fun r => r.serial_number == duplicateSerialPayload.serial_number) = 1) :=
  ⟨(create_asset_duplicate_conflict duplicateIdPayload sampleStore (by decide) (by decide)
      (by decide)).1 (by decide),
    (create_asset_duplicate_conflict duplicateSerialPayload sampleStore (by decide) (by decide)
      (by decide)).2 (by decide) (by decide) (by decide)⟩

/-- C3, counterexample: the HTTP `create_it_inventory` accepts a payload
whose `serial_number` is the empty string — the create succeeds and the
record is persisted, where the claim demands a ValidationError with no
record persisted. -/
theorem asset_create_empty_serial_persists :
    (create_it_inventory emptySerialPayload ⟨[], []⟩).1 =
      Except.ok (mkITRow 1 emptySerialPayload) ∧
    (create_it_inventory emptySerialPayload ⟨[], []⟩).2.it_inventory =
      [mkITRow 1 emptySerialPayload] ∧
    emptySerialPayload.serial_number = some "" := by
  exact ⟨rfl, rfl, rfl⟩

/-- C3, amended: the HTTP `create_it_inventory` fails with a
ValidationError and an unchanged store exactly on an empty (or, via the
required pydantic field, missing) `assets_id`; an empty or missing
`serial_number` is rejected only by the form-level `add_it_item`, which
fails with its ValidationError and an unchanged store when either field is
empty. -/
theorem asset_create_validation (p : ITInventoryCreate) (f : ITItemForm) (s : Store) :
    (p.assets_id = "" →
      create_it_inventory p s =
        (Except.error (ApiError.validation "Assets ID is required"), s)) ∧
    (f.assets_id = "" ∨ f.serial_number = "" →
      add_it_item f s =
        (Except.error (ApiError.validation "Assets ID and Serial Number are required"), s)) := by
  constructor
  · intro h
    rw [create_it_inventory, if_pos h]
  · intro h
    rw [add_it_item, if_pos h]

/-- C3, witness: a concrete empty-`assets_id` payload and a concrete
empty-serial form submission, both leaving the sample store unchanged. -/
theorem asset_create_validation_witness :
    create_it_inventory emptyIdPayload sampleStore =
      (Except.error (ApiError.validation "Assets ID is required"), sampleStore) ∧
    add_it_item emptySerialForm sampleStore =
      (Except.error (ApiError.validation "Assets ID and Serial Number are required"),
        sampleStore) :=
  ⟨(asset_create_validation emptyIdPayload emptySerialForm sampleStore).1 rfl,
    (asset_create_validation emptyIdPayload emptySerialForm sampleStore).2 (Or.inr rfl)⟩

/-- C4, counterexample: in the HTTP endpoint the filter value `ALL` is not
`"All"`, yet no equality condition is applied — the result contains a
record whose status differs from the filter value, where the claim demands
exact equality for every filter other than `"All"`. -/
theorem status_filter_all_uppercase_unfiltered :
    list_it_inventory (some "") (some "ALL") sampleStore = [sampleAsset] ∧
    sampleAsset.status ≠ some "ALL" := by
  decide

/-- C4, amended: for the HTTP endpoints, a status filter that is non-empty
and does not lower-case to `all` selects exactly the records whose status
equals it under exact case-sensitive string equality (a record with SQL
NULL status never matches), both alone (empty term) and ANDed with a
non-empty term's search condition; the form-level
`display_inventory_tracker` applies the equality filter for every value
other than the exact string `All`. -/
theorem status_filter_equality_semantics (s : Store) (st : String)
    (h1 : st ≠ "") (h2 : lowerAscii st ≠ "all") :
    (∀ r, r ∈ list_it_inventory (some "") (some st) s ↔
        r ∈ s.it_inventory ∧ r.status = some st) ∧
    (∀ q r, q ≠ "" →
        (r ∈ list_it_inventory (some q) (some st) s ↔
          r ∈ s.it_inventory ∧ itMatchesSearch q r = true ∧ r.status = some st)) ∧
    (∀ r, r ∈ list_inventory_tracker (some "") (some st) s ↔
        r ∈ s.inventory_tracker ∧ r.status = some st) ∧
    (∀ q r, q ≠ "" →
        (r ∈ list_inventory_tracker (some q) (some st) s ↔
          r ∈ s.inventory_tracker ∧ trMatchesSearch q r = true ∧ r.status = some st)) ∧
    (∀ stf : String, stf ≠ "All" →
        ∀ r, r ∈ display_inventory_tracker_rows "" stf s ↔
          r ∈ s.inventory_tracker ∧ r.status = some stf) := by
  refine ⟨fun r => ?_, fun q r hq => ?_, fun r => ?_, fun q r hq => ?_, fun stf hstf r => ?_⟩
  · simp [list_it_inventory, itSearchStage, itStatusStage, h1, h2, List.mem_filter]
  · simp only [list_it_inventory, itSearchStage, itStatusStage, if_neg h1, if_neg h2,
      if_neg hq, List.mem_filter, beq_iff_eq]
    tauto
  · simp [list_inventory_tracker, trSearchStage, trStatusStage, h1, h2, List.mem_filter]
  · simp only [list_inventory_tracker, trSearchStage, trStatusStage, if_neg h1, if_neg h2,
      if_neg hq, List.mem_filter, beq_iff_eq]
    tauto
  · simp [display_inventory_tracker_rows, hstf, List.mem_filter]

/-- C4, witness: the equality filter `Available` on the one-asset store,
evaluated at the stored asset. -/
theorem status_filter_equality_semantics_witness :
    sampleAsset ∈ list_it_inventory (some "") (some "Available") sampleStore ↔
      sampleAsset ∈ sampleStore.it_inventory ∧ sampleAsset.status = some "Available" :=
  (status_filter_equality_semantics sampleStore "Available" (by decide) (by decide)).1
    sampleAsset

/-- C5: a create with a non-empty `assets_id` and with `assets_id` and
`serial_number` distinct from every stored asset's succeeds, and the
returned record appears in a subsequent list with empty search term and
status filter `All`. -/
theorem create_then_list_roundtrip (p : ITInventoryCreate) (s : Store)
    (hid : p.assets_id ≠ "")
    (hfresh : ∀ r ∈ s.it_inventory,
      r.assets_id ≠ p.assets_id ∧ r.serial_number ≠ p.serial_number) :
    ∃ item s', create_it_inventory p s = (Except.ok item, s') ∧
      item ∈ list_it_inventory (some "") (some "All") s' := by
  have hany : s.it_inventory.any (itConflicts p) = false := by
    apply List.any_eq_false.mpr
    intro r hr
    obtain ⟨ha, hb⟩ := hfresh r hr
    simp [itConflicts, ha, hb]
  refine ⟨mkITRow (nextITId s.it_inventory) p,
    ⟨s.it_inventory ++ [mkITRow (nextITId s.it_inventory) p], s.inventory_tracker⟩, ?_, ?_⟩
  · simp [create_it_inventory, hid, hany]
  · rw [list_it_inventory_all]
    simp

/-- C5, witness: creating `B200` against the one-asset store and finding
it in the unfiltered list. -/
theorem create_then_list_roundtrip_witness :
    ∃ item s', create_it_inventory freshPayload sampleStore = (Except.ok item, s') ∧
      item ∈ list_it_inventory (some "") (some "All") s' :=
  create_then_list_roundtrip freshPayload sampleStore (by decide) (by decide)

/-- C6: `create_inventory_record` fails with its ValidationError (store
unchanged) exactly when `employee_name` or `assets_id` is empty (a missing
field is already rejected by the required pydantic schema); otherwise it
appends the new record — no uniqueness check — so the count of records
bearing the payload's `assets_id` grows by one and nothing is
overwritten. -/
theorem tracker_create_validation_append (p : TrackerCreate) (s : Store) :
    (p.employee_name = "" ∨ p.assets_id = "" →
      create_inventory_record p s =
        (Except.error (ApiError.validation "Employee Name and Assets ID are required"), s)) ∧
    (p.employee_name ≠ "" → p.assets_id ≠ "" →
      ∃ row, create_inventory_record p s =
          (Except.ok row, ⟨s.it_inventory, s.inventory_tracker ++ [row]⟩) ∧
        row.assets_id = p.assets_id ∧
        (s.inventory_tracker ++ [row]).countP (fun t => t.assets_id == p.assets_id) =
          s.inventory_tracker.countP (fun t => t.assets_id == p.assets_id) + 1) := by
  constructor
  · intro h
    rw [create_inventory_record, if_pos h]
  · intro h1 h2
    refine ⟨mkTrackerRow (nextTrackerId s.inventory_tracker) p, ?_, rfl, ?_⟩
    · rw [create_inventory_record, if_neg (by tauto)]
    · rw [List.countP_append]
      simp [mkTrackerRow]

/-- C6, witness: re-allocating asset `A100` to a second employee succeeds
and both allocation records for `A100` are kept. -/
theorem tracker_create_validation_append_witness :
    ∃ row, create_inventory_record sampleTrackerPayload sampleTrackerStore =
        (Except.ok row,
          ⟨sampleTrackerStore.it_inventory, sampleTrackerStore.inventory_tracker ++ [row]⟩) ∧
      row.assets_id = sampleTrackerPayload.assets_id ∧
      (sampleTrackerStore.inventory_tracker ++ [row]).countP
          (fun t => t.assets_id == sampleTrackerPayload.assets_id) =
        sampleTrackerStore.inventory_tracker.countP
          (fun t => t.assets_id == sampleTrackerPayload.assets_id) + 1 :=
  (tracker_create_validation_append sampleTrackerPayload sampleTrackerStore).2
    (by decide) (by decide)

/-- C7: deleting an id absent from the targeted table fails with the 404
error and returns the store unchanged (row counts stable); deleting a
present id removes exactly that one row — the table splits as
`l₁ ++ r :: l₂` and becomes `l₁ ++ l₂` — while the other table is left
untouched (no cascade). -/
theorem delete_by_id_semantics (n : Nat) (s : Store) :
    ((∀ r ∈ s.it_inventory, r.id ≠ n) →
      delete_it_inventory n s = (Except.error (ApiError.notFound "Item not found"), s)) ∧
    ((∃ r ∈ s.it_inventory, r.id = n) →
      ∃ l₁ r l₂, r.id = n ∧ s.it_inventory = l₁ ++ r :: l₂ ∧
        delete_it_inventory n s = (Except.ok (), ⟨l₁ ++ l₂, s.inventory_tracker⟩)) ∧
    ((∀ r ∈ s.inventory_tracker, r.id ≠ n) →
      delete_inventory_record n s =
        (Except.error (ApiError.notFound "Record not found"), s)) ∧
    ((∃ r ∈ s.inventory_tracker, r.id = n) →
      ∃ l₁ r l₂, r.id = n ∧ s.inventory_tracker = l₁ ++ r :: l₂ ∧
        delete_inventory_record n s = (Except.ok (), ⟨s.it_inventory, l₁ ++ l₂⟩)) := by
  refine ⟨fun h => ?_, fun h => ?_, fun h => ?_, fun h => ?_⟩
  · have hf : s.it_inventory.find? (fun r => r.id == n) = none :=
      List.find?_eq_none.mpr (by intro x hx; simpa using h x hx)
    simp [delete_it_inventory, hf]
  · obtain ⟨r0, hr0, hid⟩ := h
    have hp : (r0.id == n) = true := by simpa using hid
    obtain ⟨b, l₁, l₂, _, hb, hsplit, herase⟩ :=
      List.exists_of_eraseP (p := fun r : ITInventory => r.id == n) hr0 hp
    have hfind : (s.it_inventory.find? (fun r => r.id == n)).isSome :=
      List.find?_isSome.mpr ⟨r0, hr0, hp⟩
    obtain ⟨a, ha⟩ := Option.isSome_iff_exists.mp hfind
    exact ⟨l₁, b, l₂, by simpa using hb, hsplit, by simp [delete_it_inventory, ha, herase]⟩
  · have hf : s.inventory_tracker.find? (fun r => r.id == n) = none :=
      List.find?_eq_none.mpr (by intro x hx; simpa using h x hx)
    simp [delete_inventory_record, hf]
  · obtain ⟨r0, hr0, hid⟩ := h
    have hp : (r0.id == n) = true := by simpa using hid
    obtain ⟨b, l₁, l₂, _, hb, hsplit, herase⟩ :=
      List.exists_of_eraseP (p := fun r : InventoryTracker => r.id == n) hr0 hp
    have hfind : (s.inventory_tracker.find? (fun r => r.id == n)).isSome :=
      List.find?_isSome.mpr ⟨r0, hr0, hp⟩
    obtain ⟨a, ha⟩ := Option.isSome_iff_exists.mp hfind
    exact ⟨l₁, b, l₂, by simpa using hb, hsplit,
      by simp [delete_inventory_record, ha, herase]⟩

/-- C7, witness: deleting the absent id 2 from the one-asset store fails
with 404 and leaves the store as it was. -/
theorem delete_by_id_semantics_witness :
    delete_it_inventory 2 sampleStore =
      (Except.error (ApiError.notFound "Item not found"), sampleStore) :=
  (delete_by_id_semantics 2 sampleStore).1 (by decide)

/-- C8: the dashboard group counts (`GROUP BY status` and
`GROUP BY location` over the asset table) return an empty mapping on an
empty table, and otherwise exactly one entry per distinct column value —
SQL `NULL` (unset) forming its own bucket — carrying the exact number of
rows holding that value.  The queries are pure reads of the store. -/
theorem dashboard_group_counts_correct (s : Store) :
    (asset_status_counts ⟨[], s.inventory_tracker⟩ = [] ∧
      asset_location_counts ⟨[], s.inventory_tracker⟩ = []) ∧
    (∀ v n, (v, n) ∈ asset_status_counts s ↔
        v ∈ s.it_inventory.map (fun r => r.status) ∧
          n = s.it_inventory.countP (fun r => r.status == v)) ∧
    (∀ v n, (v, n) ∈ asset_location_counts s ↔
        v ∈ s.it_inventory.map (fun r => r.location) ∧
          n = s.it_inventory.countP (fun r => r.location == v)) ∧
    ((asset_status_counts s).map Prod.fst).Nodup ∧
    ((asset_location_counts s).map Prod.fst).Nodup :=
  ⟨⟨rfl, rfl⟩,
    fun v n => mem_groupCountBy (fun r : ITInventory => r.status) s.it_inventory v n,
    fun v n => mem_groupCountBy (fun r : ITInventory => r.location) s.it_inventory v n,
    keys_groupCountBy (fun r : ITInventory => r.status) s.it_inventory,
    keys_groupCountBy (fun r : ITInventory => r.location) s.it_inventory⟩

/-- C9: both list operations return a finite materialized list that is a
sublist of the stored table, hence in insertion order (creates append at
the end, so the table itself is in creation order). -/
theorem list_results_sublist_of_store (q st : Option String) (s : Store) :
    List.Sublist (list_it_inventory q st s) s.it_inventory ∧
    List.Sublist (list_inventory_tracker q st s) s.inventory_tracker :=
  ⟨(itStatusStage_sublist st (itSearchStage q s.it_inventory)).trans
      (itSearchStage_sublist q s.it_inventory),
    (trStatusStage_sublist st (trSearchStage q s.inventory_tracker)).trans
      (trSearchStage_sublist q s.inventory_tracker)⟩

/-- C10, counterexample: the empty status value does not lower-case to
`all`, yet the HTTP endpoint applies no equality condition for it — the
result contains a record whose status is not the empty string, where the
claim demands the equality filter for every status value not lowercasing
to `all`. -/
theorem status_filter_empty_unfiltered :
    list_it_inventory none (some "") sampleStore = [sampleAsset] ∧
    sampleAsset.status ≠ some "" := by
  decide

/-- C10, amended: in both HTTP list endpoints any status value that
lower-cases to `all` (e.g. `all`, `All`, `ALL`) applies no status
condition — the result equals both the `statusFilter = "All"` result and
the no-status result; every other non-empty status value applies the
equality filter, while an empty status parameter is falsy and also applies
no filter. -/
theorem status_all_case_insensitive (q : Option String) (st : String) (s : Store) :
    (lowerAscii st = "all" →
      list_it_inventory q (some st) s = list_it_inventory q (some "All") s ∧
      list_it_inventory q (some st) s = list_it_inventory q none s ∧
      list_inventory_tracker q (some st) s = list_inventory_tracker q (some "All") s ∧
      list_inventory_tracker q (some st) s = list_inventory_tracker q none s) ∧
    (st ≠ "" → lowerAscii st ≠ "all" →
      list_it_inventory q (some st) s =
        (list_it_inventory q none s).filter (fun r => r.status == some st) ∧
      list_inventory_tracker q (some st) s =
        (list_inventory_tracker q none s).filter (fun r => r.status == some st)) := by
  constructor
  · intro h
    have hne : st ≠ "" := by
      intro he
      rw [he] at h
      exact absurd h (by decide)
    have hAll : lowerAscii "All" = "all" := by decide
    refine ⟨?_, ?_, ?_, ?_⟩ <;>
      simp [list_it_inventory, list_inventory_tracker, itStatusStage, trStatusStage,
        h, hne, hAll]
  · intro hne hnall
    constructor <;>
      simp [list_it_inventory, list_inventory_tracker, itStatusStage, trStatusStage,
        hne, hnall]

/-- C10, witness: the concrete filter value `ALL` on the one-asset store
behaves exactly like `All` and like no filter at all. -/
theorem status_all_case_insensitive_witness :
    list_it_inventory none (some "ALL") sampleStore =
      list_it_inventory none (some "All") sampleStore ∧
    list_it_inventory none (some "ALL") sampleStore =
      list_it_inventory none none sampleStore ∧
    list_inventory_tracker none (some "ALL") sampleStore =
      list_inventory_tracker none (some "All") sampleStore ∧
    list_inventory_tracker none (some "ALL") sampleStore =
      list_inventory_tracker none none sampleStore :=
  (status_all_case_insensitive none "ALL" sampleStore).1 (by decide)

end DMCInventory
